import Mathlib

/-
Shallow embedding of the resilience-supervisor core of utils.py:
fault-log counting (max_reset_attempts_exceeded), file-age computation
(get_file_age), the age-based purge (purge_old_log_files), the interval
gate (ota_update_interval_exceeded), traceback logging (log_traceback),
the connectivity retry loop (wifi_connect) and the fault handler
(handle_exception).  Clock values and timestamps are integers (MicroPython
time.time() returns integer seconds); Python floor-modulo and
floor-division by the positive constants 86400 and 3600 coincide with the
Int emod/ediv operations behind the `%` and `/` notations used here.
Filesystem calls that can raise OSError are modelled with Except / oracle
parameters; an uncaught exception aborts the modelled control flow exactly
where the Python exception would propagate.
-/

/-- Model of the Python str.endswith test: the second string is a suffix of
the first. -/
def pyEndsWith (s suff : String) : Bool :=
  suff.data.isSuffixOf s.data

/-- Constant TRACE_LOG_MAX_KEEP_TIME from utils.py: the longest a trace log
is kept, in hours. -/
def TRACE_LOG_MAX_KEEP_TIME : Int := 48

/-- Constant MAX_EXCEPTION_RESETS_ALLOWED from utils.py: the crash budget
before the system gives up restarting. -/
def MAX_EXCEPTION_RESETS_ALLOWED : Nat := 3

/-- Constant OTA_CHECK_TIMER from utils.py: seconds between OTA update
checks. -/
def OTA_CHECK_TIMER : Int := 28800

/-- Counting loop of max_reset_attempts_exceeded: the number of files in
the listing whose name ends in ".log". -/
def countLogFiles (files : List String) : Nat :=
  files.foldl (fun acc file => if pyEndsWith file ".log" then acc + 1 else acc) 0

/-- Function max_reset_attempts_exceeded from utils.py: count the ".log"
files on the volume and report whether the count exceeds the budget. -/
def max_reset_attempts_exceeded (files : List String) (maxExceptionResets : Nat) : Bool :=
  decide (countLogFiles files > maxExceptionResets)

/-- Function get_file_age from utils.py: age in hours computed as
(current_time - modification_time) % 86400 // 3600. -/
def get_file_age (currentTime modificationTime : Int) : Int :=
  let ageSeconds := currentTime - modificationTime
  let ageHours := (ageSeconds % 86400) / 3600
  ageHours

/-- Function ota_update_interval_exceeded from utils.py: has more than
interval seconds elapsed since the ota_timer timestamp? -/
def ota_update_interval_exceeded (now otaTimer interval : Int) : Bool :=
  let otaElapsed := now - otaTimer
  if otaElapsed > interval then true else false

/-- One file on the flat storage volume: its name and its modification
timestamp (field 8 of os.stat). -/
structure FSFile where
  name : String
  mtime : Int
deriving DecidableEq

/-- A Python OSError raised by a filesystem call, identified by an errno
code. -/
inductive OSErr where
  | oserror (code : Nat)
deriving DecidableEq

/-- Observable outcome of purge_old_log_files: the found and deleted counts
it reports, the names it removed in order, and its deletions flag. -/
structure PurgeOutcome where
  found_count : Nat
  del_count : Nat
  removed : List String
  deletions : Bool
deriving DecidableEq

/-- Loop of purge_old_log_files over the listed files.  The removeErr
oracle gives, per file name, the OSError that os.remove would raise, if
any; the source wraps no try/except around the loop, so a raised error
propagates and aborts the walk at that point. -/
def purgeGo (currentTime maxAge : Int) (removeErr : String → Option OSErr) :
    List FSFile → PurgeOutcome → Except OSErr PurgeOutcome
  | [], acc => .ok acc
  | file :: rest, acc =>
    let age := get_file_age currentTime file.mtime
    if pyEndsWith file.name ".log" then
      let acc1 : PurgeOutcome := { acc with found_count := acc.found_count + 1 }
      if age > maxAge then
        match removeErr file.name with
        | some e => .error e
        | none =>
          purgeGo currentTime maxAge removeErr rest
            { acc1 with del_count := acc1.del_count + 1,
                        removed := acc1.removed ++ [file.name],
                        deletions := true }
      else
        purgeGo currentTime maxAge removeErr rest acc1
    else
      purgeGo currentTime maxAge removeErr rest acc

/-- Function purge_old_log_files from utils.py: list the volume (the
listing itself may raise, which fails the caller), then walk the files,
deleting each ".log" file whose computed age exceeds maxAge. -/
def purge_old_log_files (currentTime maxAge : Int)
    (listing : Except OSErr (List FSFile)) (removeErr : String → Option OSErr) :
    Except OSErr PurgeOutcome :=
  match listing with
  | .error e => .error e
  | .ok files => purgeGo currentTime maxAge removeErr files ⟨0, 0, [], false⟩

/-- Console and file effects of log_traceback, in order of occurrence. -/
inductive LogEvent where
  | consolePrint (text : String)
  | fileWrite (fname : String) (content : String)
deriving DecidableEq

/-- Function log_traceback from utils.py: format the exception into output,
print it to the console, then write it to <timestamp>-traceback.log and
return it.  writeFails models the open/write raising; the console print has
already happened by then, and no value is returned (none). -/
def log_traceback (timestampName output : String) (writeFails : Bool) :
    List LogEvent × Option String :=
  let traceback_file := timestampName ++ "-" ++ "traceback.log"
  if writeFails then
    ([LogEvent.consolePrint output], none)
  else
    ([LogEvent.consolePrint output, LogEvent.fileWrite traceback_file output], some output)

/-- Notification body built by handle_exception:
{machine: hostname, traceback: tb_msg}. -/
structure TracebackData where
  machine : String
  traceback : String
deriving DecidableEq

/-- Observable outcome of handle_exception: the volume after the traceback
write, the POST issued (notify_url and payload) if any, whether the
response was closed, whether the degraded flash_led(3000, 3) state was
entered, and whether machine.reset() was called. -/
structure HandleOutcome where
  files : List String
  posted : Option (String × TracebackData)
  respClosed : Bool
  flashed : Bool
  restarted : Bool
deriving DecidableEq

/-- Writing a file on the flat volume: a name already present is
overwritten in place (the set of names is unchanged), a new name is
appended to the listing. -/
def writeName (files : List String) (fname : String) : List String :=
  if fname ∈ files then files else files ++ [fname]

/-- Function handle_exception from utils.py: log the traceback (writing
<timestamp>-traceback.log onto the volume), then consult
max_reset_attempts_exceeded on the updated volume.  If the budget is
exceeded: POST the payload to notify_url — urequests.post returns a
response object both for success and for failure statuses, postOk being
that outcome, which the source never inspects — close the response, and
enter the long degraded flash.  Otherwise reset the machine. -/
def handle_exception (files : List String)
    (timestampName hostname notify_url tbMsg : String)
    (maxResets : Nat) (postOk : Bool) : HandleOutcome :=
  let traceback_file := timestampName ++ "-" ++ "traceback.log"
  let files2 := writeName files traceback_file
  if max_reset_attempts_exceeded files2 maxResets then
    { files := files2
      posted := some (notify_url, { machine := hostname, traceback := tbMsg })
      respClosed := true
      flashed := true
      restarted := false }
  else
    { files := files2
      posted := none
      respClosed := false
      flashed := false
      restarted := true }

/-- Result of the wifi_connect loop: association succeeded after polls
status polls, or machine.reset() fired after polls polls, or the modelling
fuel ran out (never reached with the fuel wifi_connect supplies, as the
theorems show). -/
inductive WifiOutcome where
  | connected (polls : Nat)
  | restarted (polls : Nat)
  | fuelOut
deriving DecidableEq

/-- While-loop of wifi_connect.  isconnected p is the radio answer to the
p-th status poll, polls numbered from 1.  The counter starts at 1 and is
incremented after each failed poll; when it passes connection_attempts the
device resets.  Fuel bounds the unrolling of the unbounded Python while
loop. -/
def wifiLoop (isconnected : Nat → Bool) (connection_attempts : Nat) :
    Nat → Nat → Nat → WifiOutcome
  | _, _, 0 => .fuelOut
  | counter, poll, fuel + 1 =>
    if isconnected poll then .connected poll
    else if counter + 1 > connection_attempts then .restarted poll
    else wifiLoop isconnected connection_attempts (counter + 1) (poll + 1) fuel

/-- Function wifi_connect from utils.py: counter starts at 1, the first
status poll is poll 1, and connection_attempts + 1 fuel always suffices. -/
def wifi_connect (isconnected : Nat → Bool) (connection_attempts : Nat) : WifiOutcome :=
  wifiLoop isconnected connection_attempts 1 1 (connection_attempts + 1)

/-- Unfolding of get_file_age to its arithmetic core. -/
theorem get_file_age_eq (currentTime modificationTime : Int) :
    get_file_age currentTime modificationTime =
      ((currentTime - modificationTime) % 86400) / 3600 := rfl

/-- Age of a file whose mtime lies c seconds before the clock. -/
theorem get_file_age_shift (now c : Int) :
    get_file_age now (now - c) = (c % 86400) / 3600 := by
  rw [get_file_age_eq]
  have h : now - (now - c) = c := by ring
  rw [h]

/-- The computed age always lies between 0 and 23 hours. -/
theorem get_file_age_bounds (currentTime modificationTime : Int) :
    0 ≤ get_file_age currentTime modificationTime ∧
    get_file_age currentTime modificationTime ≤ 23 := by
  rw [get_file_age_eq]
  have h1 : 0 ≤ (currentTime - modificationTime) % 86400 :=
    Int.emod_nonneg _ (by decide)
  have h2 : (currentTime - modificationTime) % 86400 < 86400 :=
    Int.emod_lt_of_pos _ (by decide)
  refine ⟨Int.ediv_nonneg h1 (by decide), ?_⟩
  have h3 : (currentTime - modificationTime) % 86400 ≤ 86399 := by omega
  have h4 := Int.ediv_le_ediv (by decide : (0:Int) < 3600) h3
  have h5 : (86399 : Int) / 3600 = 23 := by decide
  omega

/-- Shifting the accumulator of the log-counting fold. -/
theorem countLog_foldl_shift (ns : List String) (a : Nat) :
    ns.foldl (fun acc file => if pyEndsWith file ".log" then acc + 1 else acc) a =
    a + ns.foldl (fun acc file => if pyEndsWith file ".log" then acc + 1 else acc) 0 := by
  induction ns generalizing a with
  | nil => simp
  | cons n ns ih =>
    simp only [List.foldl_cons]
    by_cases h : pyEndsWith n ".log"
    · rw [if_pos h, if_pos h, ih (a + 1), ih (0 + 1)]
      omega
    · rw [if_neg h, if_neg h, ih a]

/-- Cons unfolding of countLogFiles. -/
theorem countLogFiles_cons (n : String) (ns : List String) :
    countLogFiles (n :: ns) =
      (if pyEndsWith n ".log" then 1 else 0) + countLogFiles ns := by
  unfold countLogFiles
  simp only [List.foldl_cons]
  by_cases h : pyEndsWith n ".log"
  · simp only [if_pos h]
    rw [countLog_foldl_shift ns (0 + 1)]
  · simp only [if_neg h]
    simp

/-- A written file name is on the volume afterwards. -/
theorem mem_writeName (files : List String) (fname : String) :
    fname ∈ writeName files fname := by
  unfold writeName
  by_cases h : fname ∈ files
  · rw [if_pos h]; exact h
  · rw [if_neg h]; simp

/-- Unfolding of purge_old_log_files on a successful listing. -/
theorem purge_old_log_files_ok (currentTime maxAge : Int) (files : List FSFile)
    (removeErr : String → Option OSErr) :
    purge_old_log_files currentTime maxAge (.ok files) removeErr =
      purgeGo currentTime maxAge removeErr files ⟨0, 0, [], false⟩ := rfl

/-- When no listed file is older than maxAge, the purge walk deletes
nothing, counts every ".log" file, and cannot fail. -/
theorem purgeGo_no_delete (currentTime maxAge : Int) (removeErr : String → Option OSErr)
    (files : List FSFile) :
    ∀ acc : PurgeOutcome,
      (∀ f ∈ files, ¬ get_file_age currentTime f.mtime > maxAge) →
      purgeGo currentTime maxAge removeErr files acc =
        .ok { acc with found_count :=
                acc.found_count + countLogFiles (files.map FSFile.name) } := by
  induction files with
  | nil =>
    intro acc _
    simp [purgeGo, countLogFiles]
  | cons file rest ih =>
    intro acc hages
    have hfile : ¬ get_file_age currentTime file.mtime > maxAge := hages file (by simp)
    have hrest : ∀ f ∈ rest, ¬ get_file_age currentTime f.mtime > maxAge :=
      fun f hf => hages f (by simp [hf])
    simp only [purgeGo]
    by_cases hlog : pyEndsWith file.name ".log"
    · simp only [if_pos hlog, if_neg hfile, ih _ hrest]
      simp only [List.map_cons, countLogFiles_cons, if_pos hlog]
      congr 2
      omega
    · simp only [if_neg hlog, ih _ hrest]
      simp only [List.map_cons, countLogFiles_cons, if_neg hlog]
      congr 2
      omega

/-- Success case of the wifi_connect while loop: if the radio first answers
true on poll K, the loop returns connected after exactly K polls. -/
theorem wifiLoop_connected (isconnected : Nat → Bool) (maxA K : Nat)
    (hKmax : K ≤ maxA) (hK : isconnected K = true) :
    ∀ fuel poll, poll ≤ K → (∀ j, poll ≤ j → j < K → isconnected j = false) →
      K + 1 - poll ≤ fuel →
      wifiLoop isconnected maxA poll poll fuel = .connected K := by
  intro fuel
  induction fuel with
  | zero =>
    intro poll h1 _ h3
    omega
  | succ fuel ih =>
    intro poll hpoll hbefore _
    by_cases hp : isconnected poll = true
    · have hpk : poll = K := by
        by_contra hne
        have hlt : poll < K := lt_of_le_of_ne hpoll hne
        rw [hbefore poll le_rfl hlt] at hp
        exact Bool.false_ne_true hp
      subst hpk
      simp [wifiLoop, hp]
    · have hb : isconnected poll = false := by
        revert hp; cases isconnected poll <;> simp
      have hplt : poll < K := by
        rcases Nat.lt_or_ge poll K with h | h
        · exact h
        · have : poll = K := le_antisymm hpoll h
          rw [this, hK] at hb
          exact absurd hb (by simp)
      simp only [wifiLoop, hb, Bool.false_eq_true, if_false]
      rw [if_neg (by omega : ¬ poll + 1 > maxA)]
      exact ih (poll + 1) (by omega)
        (fun j hj1 hj2 => hbefore j (by omega) hj2) (by omega)

/-- Failure case of the wifi_connect while loop: a radio that never answers
true makes the loop reset after exactly maxA polls. -/
theorem wifiLoop_never (isconnected : Nat → Bool) (maxA : Nat)
    (hbad : ∀ j, isconnected j = false) :
    ∀ fuel poll, 1 ≤ poll → poll ≤ maxA → maxA + 1 - poll ≤ fuel →
      wifiLoop isconnected maxA poll poll fuel = .restarted maxA := by
  intro fuel
  induction fuel with
  | zero =>
    intro poll h1 h2 h3
    omega
  | succ fuel ih =>
    intro poll h1 h2 _
    simp only [wifiLoop, hbad poll, Bool.false_eq_true, if_false]
    by_cases hend : poll + 1 > maxA
    · have hpm : poll = maxA := by omega
      subst hpm
      rw [if_pos hend]
    · rw [if_neg hend]
      exact ih (poll + 1) (by omega) (by omega) (by omega)

/-- Claim C1: for every count n of persisted ".log" fault-record files and
every threshold maxResets, max_reset_attempts_exceeded (should_give_up)
returns false when n ≤ maxResets and true when n > maxResets; the default
threshold MAX_EXCEPTION_RESETS_ALLOWED is 3. -/
theorem claim_C1_should_give_up (files : List String) (maxResets n : Nat)
    (hn : countLogFiles files = n) :
    (n ≤ maxResets → max_reset_attempts_exceeded files maxResets = false) ∧
    (n > maxResets → max_reset_attempts_exceeded files maxResets = true) ∧
    MAX_EXCEPTION_RESETS_ALLOWED = 3 := by
  subst hn
  refine ⟨fun h => ?_, fun h => ?_, rfl⟩ <;>
    simp [max_reset_attempts_exceeded] <;> omega

/-- Witness for claim C1 at concrete stores with 2 and 4 log files. -/
theorem claim_C1_should_give_up_witness :
    max_reset_attempts_exceeded
      ["2023-9-26-5-44-15-traceback.log", "2023-9-26-9-44-51-traceback.log", "main.py"]
      3 = false ∧
    max_reset_attempts_exceeded
      ["a-traceback.log", "b-traceback.log", "c-traceback.log", "d-traceback.log"]
      3 = true :=
  ⟨(claim_C1_should_give_up _ 3 2 (by decide)).1 (by decide),
   (claim_C1_should_give_up _ 3 4 (by decide)).2.1 (by decide)⟩

/-- Claim C6: the age purge uses is ((now − mtime) mod 86400) div 3600
hours, so it is unchanged when the mtime moves a full day older, and a file
exactly 50 hours old reports as 2 hours old. -/
theorem claim_C6_age_wraps (now mtime : Int) (h : mtime ≤ now) :
    get_file_age now mtime = ((now - mtime) % 86400) / 3600 ∧
    get_file_age now (mtime - 86400) = get_file_age now mtime ∧
    get_file_age now (now - 50 * 3600) = 2 := by
  refine ⟨rfl, ?_, ?_⟩
  · rw [get_file_age_eq, get_file_age_eq]
    have e1 : now - (mtime - 86400) = (now - mtime) + 86400 * 1 := by ring
    rw [e1, Int.add_mul_emod_self_left]
  · rw [get_file_age_shift]
    decide

/-- Witness for claim C6 at now = 180000, mtime = 0 (a 50-hour-old file). -/
theorem claim_C6_age_wraps_witness :
    get_file_age 180000 0 = ((180000 - 0) % 86400) / 3600 ∧
    get_file_age 180000 (0 - 86400) = get_file_age 180000 0 ∧
    get_file_age 180000 (180000 - 50 * 3600) = 2 :=
  claim_C6_age_wraps 180000 0 (by decide)

/-- Claim C7: ota_update_interval_exceeded (elapsed_exceeds) is true iff
now − otaTimer > interval; for a nonnegative interval (such as the default
OTA_CHECK_TIMER) it is false when now = otaTimer, and it returns a possibly
stale false rather than failing when the clock has been stepped backward so
that now < otaTimer. -/
theorem claim_C7_interval_gate (now otaTimer interval : Int) :
    (ota_update_interval_exceeded now otaTimer interval = true ↔
      now - otaTimer > interval) ∧
    (0 ≤ interval → now = otaTimer →
      ota_update_interval_exceeded now otaTimer interval = false) ∧
    (0 ≤ interval → now < otaTimer →
      ota_update_interval_exceeded now otaTimer interval = false) ∧
    0 ≤ OTA_CHECK_TIMER := by
  by_cases h : now - otaTimer > interval
  · refine ⟨by simp [ota_update_interval_exceeded, h], ?_, ?_, by decide⟩
    · intro hi he
      exact absurd h (by omega)
    · intro hi hlt
      exact absurd h (by omega)
  · exact ⟨by simp [ota_update_interval_exceeded, h],
      fun _ _ => by simp [ota_update_interval_exceeded, h],
      fun _ _ => by simp [ota_update_interval_exceeded, h], by decide⟩

/-- Witness for claim C7 at now = otaTimer = 5, at a backward-stepped clock
(now = 0, otaTimer = 10), and at an elapsed time beyond the interval, all
with the default interval OTA_CHECK_TIMER = 28800. -/
theorem claim_C7_interval_gate_witness :
    ota_update_interval_exceeded 5 5 OTA_CHECK_TIMER = false ∧
    ota_update_interval_exceeded 0 10 OTA_CHECK_TIMER = false ∧
    (ota_update_interval_exceeded 30000 0 OTA_CHECK_TIMER = true ↔
      (30000 : Int) - 0 > OTA_CHECK_TIMER) :=
  ⟨(claim_C7_interval_gate 5 5 OTA_CHECK_TIMER).2.1 (by decide) rfl,
   (claim_C7_interval_gate 0 10 OTA_CHECK_TIMER).2.2.1 (by decide) (by decide),
   (claim_C7_interval_gate 30000 0 OTA_CHECK_TIMER).1⟩

/-- Claim C9: log_traceback surfaces the formatted fault text on the
console strictly before attempting the persistent write: the console print
is the first effect, it is present even when the write fails, and on the
success path the write of <timestamp>-traceback.log comes after it. -/
theorem claim_C9_print_before_write (timestampName output : String) (writeFails : Bool) :
    (log_traceback timestampName output writeFails).1.head? =
      some (LogEvent.consolePrint output) ∧
    LogEvent.consolePrint output ∈ (log_traceback timestampName output writeFails).1 ∧
    (log_traceback timestampName output false).1 =
      [LogEvent.consolePrint output,
       LogEvent.fileWrite (timestampName ++ "-" ++ "traceback.log") output] := by
  unfold log_traceback
  cases writeFails <;> simp

/-- Claim C2: handle_exception first writes the new fault record and then
consults the guard on the updated volume; whenever the resulting ".log"
record count is within maxResets (for instance 2 prior records plus the new
one against maxResets = 3) it performs a hard restart, issues no
notification POST, and does not enter the degraded flash. -/
theorem claim_C2_recoverable_restarts (files : List String)
    (timestampName hostname notify_url tbMsg : String) (maxResets : Nat) (postOk : Bool)
    (hcount : countLogFiles
        (writeName files (timestampName ++ "-" ++ "traceback.log")) ≤ maxResets) :
    (timestampName ++ "-" ++ "traceback.log") ∈
      (handle_exception files timestampName hostname notify_url tbMsg maxResets postOk).files ∧
    (handle_exception files timestampName hostname notify_url tbMsg maxResets postOk).restarted
      = true ∧
    (handle_exception files timestampName hostname notify_url tbMsg maxResets postOk).posted
      = none ∧
    (handle_exception files timestampName hostname notify_url tbMsg maxResets postOk).flashed
      = false := by
  have hguard : max_reset_attempts_exceeded
      (writeName files (timestampName ++ "-" ++ "traceback.log")) maxResets = false := by
    simp [max_reset_attempts_exceeded]
    omega
  simp only [handle_exception, hguard, Bool.false_eq_true, if_false]
  exact ⟨mem_writeName _ _, trivial, trivial, trivial⟩

/-- Witness for claim C2: two prior fault records, the new record makes
three, the budget is 3, so the handler restarts without notifying. -/
theorem claim_C2_recoverable_restarts_witness :
    ("c" ++ "-" ++ "traceback.log") ∈
      (handle_exception ["a-traceback.log", "b-traceback.log"] "c" "pico"
        "http://example.test/notify" "boom" 3 true).files ∧
    (handle_exception ["a-traceback.log", "b-traceback.log"] "c" "pico"
        "http://example.test/notify" "boom" 3 true).restarted = true ∧
    (handle_exception ["a-traceback.log", "b-traceback.log"] "c" "pico"
        "http://example.test/notify" "boom" 3 true).posted = none ∧
    (handle_exception ["a-traceback.log", "b-traceback.log"] "c" "pico"
        "http://example.test/notify" "boom" 3 true).flashed = false :=
  claim_C2_recoverable_restarts ["a-traceback.log", "b-traceback.log"] "c" "pico"
    "http://example.test/notify" "boom" 3 true (by decide)

/-- Claim C3: when the record count after the write exceeds maxResets,
handle_exception issues a POST to notify_url whose payload carries the
device id as machine and the captured detail as traceback, closes the
response for either POST outcome, enters the degraded flash state, and does
not restart. -/
theorem claim_C3_exhausted_notifies (files : List String)
    (timestampName hostname notify_url tbMsg : String) (maxResets : Nat)
    (hcount : countLogFiles
        (writeName files (timestampName ++ "-" ++ "traceback.log")) > maxResets) :
    ∀ postOk : Bool,
      (handle_exception files timestampName hostname notify_url tbMsg maxResets postOk).posted
        = some (notify_url, { machine := hostname, traceback := tbMsg }) ∧
      (handle_exception files timestampName hostname notify_url tbMsg maxResets postOk).respClosed
        = true ∧
      (handle_exception files timestampName hostname notify_url tbMsg maxResets postOk).flashed
        = true ∧
      (handle_exception files timestampName hostname notify_url tbMsg maxResets postOk).restarted
        = false ∧
      (timestampName ++ "-" ++ "traceback.log") ∈
        (handle_exception files timestampName hostname notify_url tbMsg maxResets postOk).files := by
  intro postOk
  have hguard : max_reset_attempts_exceeded
      (writeName files (timestampName ++ "-" ++ "traceback.log")) maxResets = true := by
    simp [max_reset_attempts_exceeded]
    omega
  simp only [handle_exception, hguard, if_true]
  exact ⟨trivial, trivial, trivial, trivial, mem_writeName _ _⟩

/-- Witness for claim C3: three prior fault records, the new record makes
four against a budget of 3; instantiated at both POST outcomes. -/
theorem claim_C3_exhausted_notifies_witness :
    ((handle_exception ["a-traceback.log", "b-traceback.log", "c-traceback.log"] "d" "pico"
        "http://example.test/notify" "boom" 3 true).posted
      = some ("http://example.test/notify", { machine := "pico", traceback := "boom" }) ∧
     (handle_exception ["a-traceback.log", "b-traceback.log", "c-traceback.log"] "d" "pico"
        "http://example.test/notify" "boom" 3 true).respClosed = true ∧
     (handle_exception ["a-traceback.log", "b-traceback.log", "c-traceback.log"] "d" "pico"
        "http://example.test/notify" "boom" 3 true).flashed = true ∧
     (handle_exception ["a-traceback.log", "b-traceback.log", "c-traceback.log"] "d" "pico"
        "http://example.test/notify" "boom" 3 true).restarted = false ∧
     ("d" ++ "-" ++ "traceback.log") ∈
       (handle_exception ["a-traceback.log", "b-traceback.log", "c-traceback.log"] "d" "pico"
        "http://example.test/notify" "boom" 3 true).files) ∧
    ((handle_exception ["a-traceback.log", "b-traceback.log", "c-traceback.log"] "d" "pico"
        "http://example.test/notify" "boom" 3 false).posted
      = some ("http://example.test/notify", { machine := "pico", traceback := "boom" }) ∧
     (handle_exception ["a-traceback.log", "b-traceback.log", "c-traceback.log"] "d" "pico"
        "http://example.test/notify" "boom" 3 false).respClosed = true ∧
     (handle_exception ["a-traceback.log", "b-traceback.log", "c-traceback.log"] "d" "pico"
        "http://example.test/notify" "boom" 3 false).flashed = true ∧
     (handle_exception ["a-traceback.log", "b-traceback.log", "c-traceback.log"] "d" "pico"
        "http://example.test/notify" "boom" 3 false).restarted = false ∧
     ("d" ++ "-" ++ "traceback.log") ∈
       (handle_exception ["a-traceback.log", "b-traceback.log", "c-traceback.log"] "d" "pico"
        "http://example.test/notify" "boom" 3 false).files) :=
  ⟨claim_C3_exhausted_notifies ["a-traceback.log", "b-traceback.log", "c-traceback.log"]
     "d" "pico" "http://example.test/notify" "boom" 3 (by decide) true,
   claim_C3_exhausted_notifies ["a-traceback.log", "b-traceback.log", "c-traceback.log"]
     "d" "pico" "http://example.test/notify" "boom" 3 (by decide) false⟩

/-- Claim C4: a radio that first reports connected on poll K with
1 ≤ K ≤ maxAttempts makes wifi_connect succeed after exactly K polls with
no restart; a radio that never reports connected makes it reset exactly
once, after exactly maxAttempts polls and never before. -/
theorem claim_C4_wifi_connect (good bad : Nat → Bool) (maxAttempts K : Nat)
    (hK1 : 1 ≤ K) (hKle : K ≤ maxAttempts) (hgood : good K = true)
    (hbefore : ∀ j, 1 ≤ j → j < K → good j = false)
    (hbad : ∀ j, bad j = false) (hmax : 1 ≤ maxAttempts) :
    wifi_connect good maxAttempts = .connected K ∧
    wifi_connect bad maxAttempts = .restarted maxAttempts := by
  constructor
  · exact wifiLoop_connected good maxAttempts K hKle hgood (maxAttempts + 1) 1 hK1
      (fun j hj1 hj2 => hbefore j hj1 hj2) (by omega)
  · exact wifiLoop_never bad maxAttempts hbad (maxAttempts + 1) 1 le_rfl hmax (by omega)

/-- Witness for claim C4: a radio that succeeds on poll 3 of 10, and a
radio that never succeeds, with the default 10 connection attempts. -/
theorem claim_C4_wifi_connect_witness :
    wifi_connect (fun j => decide (j = 3)) 10 = .connected 3 ∧
    wifi_connect (fun _ => false) 10 = .restarted 10 :=
  claim_C4_wifi_connect (fun j => decide (j = 3)) (fun _ => false) 10 3
    (by decide) (by decide) (by decide)
    (by
      intro j h1 h2
      simp only [decide_eq_false_iff_not]
      omega)
    (fun _ => rfl) (by decide)

/-- Counterexample to claim C5: for a store of four records whose true ages
are 10, 47, 49 and 72 hours (clock at 300000) and max_age = 48, purge
deletes nothing — the deleted count is 0, not 2, and the 49- and 72-hour
records are not removed. -/
theorem claim_C5_counterexample :
    purge_old_log_files 300000 TRACE_LOG_MAX_KEEP_TIME
      (.ok [⟨"a-traceback.log", 264000⟩, ⟨"b-traceback.log", 130800⟩,
            ⟨"c-traceback.log", 123600⟩, ⟨"d-traceback.log", 40800⟩])
      (fun _ => none) =
      .ok ⟨4, 0, [], false⟩ ∧
    purge_old_log_files 300000 TRACE_LOG_MAX_KEEP_TIME
      (.ok [⟨"a-traceback.log", 264000⟩, ⟨"b-traceback.log", 130800⟩,
            ⟨"c-traceback.log", 123600⟩, ⟨"d-traceback.log", 40800⟩])
      (fun _ => none) ≠
      .ok ⟨4, 2, ["c-traceback.log", "d-traceback.log"], true⟩ := by
  constructor
  · rfl
  · intro h
    rw [show (purge_old_log_files 300000 TRACE_LOG_MAX_KEEP_TIME
      (.ok [⟨"a-traceback.log", 264000⟩, ⟨"b-traceback.log", 130800⟩,
            ⟨"c-traceback.log", 123600⟩, ⟨"d-traceback.log", 40800⟩])
      (fun _ => none)) =
      .ok ⟨4, 0, [], false⟩ from rfl] at h
    simp at h

/-- Claim C5 amended: for every store of four ".log" records whose true
ages are 10, 47, 49 and 72 hours and max_age = 48, the computed ages wrap
to 10, 23, 1 and 0 hours, so purge deletes nothing: the found count is 4
and the deleted count is 0. -/
theorem claim_C5_purge_amended (now : Int) (n1 n2 n3 n4 : String)
    (h1 : pyEndsWith n1 ".log" = true) (h2 : pyEndsWith n2 ".log" = true)
    (h3 : pyEndsWith n3 ".log" = true) (h4 : pyEndsWith n4 ".log" = true) :
    purge_old_log_files now TRACE_LOG_MAX_KEEP_TIME
      (.ok [⟨n1, now - 10 * 3600⟩, ⟨n2, now - 47 * 3600⟩,
            ⟨n3, now - 49 * 3600⟩, ⟨n4, now - 72 * 3600⟩])
      (fun _ => none) =
      .ok ⟨4, 0, [], false⟩ ∧
    get_file_age now (now - 10 * 3600) = 10 ∧
    get_file_age now (now - 47 * 3600) = 23 ∧
    get_file_age now (now - 49 * 3600) = 1 ∧
    get_file_age now (now - 72 * 3600) = 0 := by
  refine ⟨?_, by rw [get_file_age_shift]; decide, by rw [get_file_age_shift]; decide,
    by rw [get_file_age_shift]; decide, by rw [get_file_age_shift]; decide⟩
  have hages : ∀ f ∈ [(⟨n1, now - 10 * 3600⟩ : FSFile), ⟨n2, now - 47 * 3600⟩,
      ⟨n3, now - 49 * 3600⟩, ⟨n4, now - 72 * 3600⟩],
      ¬ get_file_age now f.mtime > TRACE_LOG_MAX_KEEP_TIME := by
    intro f _
    have hb := get_file_age_bounds now f.mtime
    unfold TRACE_LOG_MAX_KEEP_TIME
    omega
  rw [purge_old_log_files_ok,
    purgeGo_no_delete now TRACE_LOG_MAX_KEEP_TIME (fun _ => none) _ ⟨0, 0, [], false⟩ hages]
  simp [countLogFiles_cons, countLogFiles, h1, h2, h3, h4]

/-- Witness for claim C5 amended at the concrete store of the
counterexample. -/
theorem claim_C5_purge_amended_witness :
    purge_old_log_files 300000 TRACE_LOG_MAX_KEEP_TIME
      (.ok [⟨"a-traceback.log", 300000 - 10 * 3600⟩, ⟨"b-traceback.log", 300000 - 47 * 3600⟩,
            ⟨"c-traceback.log", 300000 - 49 * 3600⟩, ⟨"d-traceback.log", 300000 - 72 * 3600⟩])
      (fun _ => none) =
      .ok ⟨4, 0, [], false⟩ ∧
    get_file_age 300000 (300000 - 10 * 3600) = 10 ∧
    get_file_age 300000 (300000 - 47 * 3600) = 23 ∧
    get_file_age 300000 (300000 - 49 * 3600) = 1 ∧
    get_file_age 300000 (300000 - 72 * 3600) = 0 :=
  claim_C5_purge_amended 300000 "a-traceback.log" "b-traceback.log"
    "c-traceback.log" "d-traceback.log" (by decide) (by decide) (by decide) (by decide)

/-- Counterexample to claim C8: the source wraps no exception handling
around the per-file delete, so a failing os.remove aborts purge and fails
the caller even though the directory listing succeeded; the second file is
never examined. -/
theorem claim_C8_counterexample :
    purge_old_log_files 7200 1
      (.ok [⟨"a-traceback.log", 0⟩, ⟨"b-traceback.log", 0⟩])
      (fun _ => some (OSErr.oserror 5)) = .error (OSErr.oserror 5) := rfl

/-- Claim C8 amended: purge is aborted by any raised filesystem error: a
listing failure fails the caller, and so does a per-file delete failure on
a stale ".log" file — the walk stops there and the remaining files (rest,
arbitrary) are not processed. -/
theorem claim_C8_abort_on_any_error (now maxAge : Int) (e : OSErr)
    (removeErr : String → Option OSErr) (f : FSFile) (rest : List FSFile)
    (hlog : pyEndsWith f.name ".log" = true)
    (hage : get_file_age now f.mtime > maxAge)
    (herr : removeErr f.name = some e) :
    purge_old_log_files now maxAge (.error e) removeErr = .error e ∧
    purge_old_log_files now maxAge (.ok (f :: rest)) removeErr = .error e := by
  refine ⟨rfl, ?_⟩
  unfold purge_old_log_files
  simp only [purgeGo, hlog, if_true, if_pos hage, herr]

/-- Witness for claim C8 amended: a one-file store whose delete raises
errno 5, with a second listed file left unprocessed. -/
theorem claim_C8_abort_on_any_error_witness :
    purge_old_log_files 7200 1 (.error (OSErr.oserror 5))
      (fun _ => some (OSErr.oserror 5)) = .error (OSErr.oserror 5) ∧
    purge_old_log_files 7200 1
      (.ok [⟨"x-traceback.log", 0⟩, ⟨"y-traceback.log", 0⟩])
      (fun _ => some (OSErr.oserror 5)) = .error (OSErr.oserror 5) :=
  claim_C8_abort_on_any_error 7200 1 (OSErr.oserror 5) (fun _ => some (OSErr.oserror 5))
    ⟨"x-traceback.log", 0⟩ [⟨"y-traceback.log", 0⟩] (by decide) (by decide) rfl

/-- Claim C10: for every store whose files all have mtime ≤ now, every
computed age lies in 0..23 hours; consequently purge with any
maxAge ≥ 23 — including the default TRACE_LOG_MAX_KEEP_TIME = 48 — deletes
no record at all, whatever the true ages. -/
theorem claim_C10_wrap_defeats_purge (now maxAge : Int) (files : List FSFile)
    (removeErr : String → Option OSErr)
    (hm : ∀ f ∈ files, f.mtime ≤ now) (hage : 23 ≤ maxAge) :
    (∀ f ∈ files, 0 ≤ get_file_age now f.mtime ∧ get_file_age now f.mtime ≤ 23) ∧
    purge_old_log_files now maxAge (.ok files) removeErr =
      .ok ⟨countLogFiles (files.map FSFile.name), 0, [], false⟩ ∧
    (23 : Int) ≤ TRACE_LOG_MAX_KEEP_TIME := by
  refine ⟨fun f _ => get_file_age_bounds now f.mtime, ?_, by decide⟩
  have hages : ∀ f ∈ files, ¬ get_file_age now f.mtime > maxAge := by
    intro f _
    have hb := get_file_age_bounds now f.mtime
    omega
  rw [purge_old_log_files_ok,
    purgeGo_no_delete now maxAge removeErr files ⟨0, 0, [], false⟩ hages]
  simp

/-- Witness for claim C10: a genuinely 72-hour-old record survives a purge
with the default 48-hour retention. -/
theorem claim_C10_wrap_defeats_purge_witness :
    (∀ f ∈ [(⟨"x-traceback.log", 40800⟩ : FSFile)],
      0 ≤ get_file_age 300000 f.mtime ∧ get_file_age 300000 f.mtime ≤ 23) ∧
    purge_old_log_files 300000 48 (.ok [⟨"x-traceback.log", 40800⟩]) (fun _ => none) =
      .ok ⟨countLogFiles (List.map FSFile.name [⟨"x-traceback.log", 40800⟩]), 0, [], false⟩ ∧
    (23 : Int) ≤ TRACE_LOG_MAX_KEEP_TIME :=
  claim_C10_wrap_defeats_purge 300000 48 [⟨"x-traceback.log", 40800⟩] (fun _ => none)
    (by decide) (by decide)
